import Mathlib

/-!
Shallow embedding of the slot-allocation and booking engine of the
medical-appointment scheduling repository.

Timestamps are modelled as `Int` minutes since an arbitrary epoch, all already
normalized to the single canonical zone (the code coerces every naive datetime
to the default zone before any comparison, so a one-dimensional timeline is
faithful).  A calendar date is the integer day index `d`; clock times are
minutes of the day, so the zoned datetime "day d at clock c" is `d * 1440 + c`.

Two independent subsystems exist in the source and are embedded separately:
  * `Scheduler` — `src/backend/scheduler.py` (xlsx schedule + sqlite ledger +
    calendar_events.xlsx mirror): `_overlaps`, `find_available_slots`,
    `book_slot`, the interval loaders.
  * `Agent` — `src/backend/agents/scheduling_agent.py`,
    `src/backend/database/appointment_db.py`, `src/backend/utils/date_utils.py`:
    `get_available_slots`, `update_appointment`, `reschedule_appointment`.
-/

namespace Scheduler

/-- `_overlaps` from `scheduler.py`: `(s1 < e2) and (e1 > s2)`. -/
def _overlaps (s1 e1 s2 e2 : Int) : Bool :=
  decide (s1 < e2) && decide (e1 > s2)

/-- One row of the doctor's schedule sheet (`doctor_schedules.xlsx`), after
parsing.  `date` is `none` when the cell is empty or unparsable (the code
skips such rows); likewise `start_time` / `end_time` are `none` when
`_parse_clock` raises.  `slot_duration_default` is the parsed
`slot_duration_default` column (`int(... or 30)`). -/
structure ScheduleRow where
  date : Option Int
  start_time : Option Int
  end_time : Option Int
  slot_duration_default : Int
  deriving Repr, DecidableEq

/-- A row of the `appointments` table used by `scheduler.py`
(`appointment_id, patient_id, doctor_sheet, start_time, end_time,
duration_minutes, status, created_at, updated_at`). -/
structure Appt where
  appointment_id : String
  patient_id : String
  doctor_sheet : String
  start_time : Int
  end_time : Int
  duration_minutes : Int
  status : String
  created_at : Int
  updated_at : Int
  deriving Repr, DecidableEq

/-- A row of `calendar_events.xlsx` (the append-only mirror), as written by
`_append_calendar_event_row`. -/
structure CalEvent where
  event_id : String
  appointment_id : String
  doctor_sheet : String
  start_time : Int
  end_time : Int
  created_at : Int
  source : String
  deriving Repr, DecidableEq

/-- The persistent state `scheduler.py` reads and writes: the sqlite
`appointments` table and the `calendar_events.xlsx` mirror. -/
structure SchedState where
  appointments : List Appt
  calendar_events : List CalEvent
  deriving Repr, DecidableEq

/-- `_load_existing_intervals_from_db`: intervals of the doctor's rows with
status IN ('tentative','confirmed'). -/
def _load_existing_intervals_from_db (st : SchedState) (doctor_sheet : String) :
    List (Int × Int) :=
  (st.appointments.filter fun a =>
      a.doctor_sheet == doctor_sheet &&
        (a.status == "tentative" || a.status == "confirmed")).map
    fun a => (a.start_time, a.end_time)

/-- `_load_booked_intervals_for_doctor`: the DB intervals (tentative/confirmed
only) followed by every `calendar_events` row for the doctor — the mirror rows
carry no status and are not filtered. -/
def _load_booked_intervals_for_doctor (st : SchedState) (doctor_sheet : String) :
    List (Int × Int) :=
  _load_existing_intervals_from_db st doctor_sheet ++
    (st.calendar_events.filter fun r => r.doctor_sheet == doctor_sheet).map
      fun r => (r.start_time, r.end_time)

/-- The candidate-generation `while` loop of `find_available_slots`:
`while cur <= last_start_allowed and len(candidates) < max_results`.
`acc` is the global candidate list (shared across schedule rows, which is why
the `max_results` bound is checked against it).  The loop is driven by `fuel`;
the caller supplies enough fuel for any positive `step` (for `step <= 0` the
Python loop would not terminate). -/
def slotLoop (booked : List (Int × Int)) (now duration step last_allowed : Int)
    (max_results : Nat) : Nat → Int → List Int → List Int
  | 0, _, acc => acc
  | fuel + 1, cur, acc =>
    if cur ≤ last_allowed ∧ acc.length < max_results then
      let candidate_end := cur + duration
      if candidate_end ≤ now then
        slotLoop booked now duration step last_allowed max_results fuel (cur + step) acc
      else if booked.any fun b => _overlaps cur candidate_end b.1 b.2 then
        slotLoop booked now duration step last_allowed max_results fuel (cur + step) acc
      else
        slotLoop booked now duration step last_allowed max_results fuel (cur + step)
          (acc ++ [cur])
    else acc

/-- The body of `find_available_slots`'s `for _, row in df.iterrows()` loop for
one schedule row: skip rows with missing/unparsable date, rows outside the
explicit `date_from`/`date_to` bounds (no filtering when a bound is `None`),
rows with unparsable clock strings, and rows with `day_end <= day_start`;
otherwise run the candidate loop.  `step_minutes` is used only when truthy
(`int(step_minutes) if step_minutes else int(slot_default)`), so `some 0`
falls back to the row default, exactly as Python's falsy `0` does. -/
def rowCandidates (booked : List (Int × Int)) (now : Int)
    (date_from date_to : Option Int) (duration_minutes : Int)
    (step_minutes : Option Int) (max_results : Nat)
    (acc : List Int) (row : ScheduleRow) : List Int :=
  match row.date with
  | none => acc
  | some day =>
    if (match date_from with | some df => decide (day < df) | none => false) then acc
    else if (match date_to with | some dt => decide (dt < day) | none => false) then acc
    else
      match row.start_time, row.end_time with
      | some sc, some ec =>
        let day_start := day * 1440 + sc
        let day_end := day * 1440 + ec
        if day_end ≤ day_start then acc
        else
          let step := match step_minutes with
            | some s => if s = 0 then row.slot_duration_default else s
            | none => row.slot_duration_default
          let last_allowed := day_end - duration_minutes
          slotLoop booked now duration_minutes step last_allowed max_results
            ((last_allowed - day_start).toNat + 1) day_start acc
      | _, _ => acc

/-- `find_available_slots(doctor_sheet, date_from, date_to, duration_minutes,
step_minutes, max_results)`.  `rows` is the content of the doctor's schedule
sheet (`load_doctor_schedule`), `now` the evaluation instant
(`datetime.now(tz)`).  Candidates are accumulated across all rows into one
list (the `max_results` bound applies to that shared list during generation),
then sorted ascending and truncated to `max_results`. -/
def find_available_slots (st : SchedState) (rows : List ScheduleRow)
    (doctor_sheet : String) (date_from date_to : Option Int)
    (duration_minutes : Int) (step_minutes : Option Int) (max_results : Nat)
    (now : Int) : List Int :=
  let booked := _load_booked_intervals_for_doctor st doctor_sheet
  let candidates := rows.foldl
    (rowCandidates booked now date_from date_to duration_minutes step_minutes
      max_results) []
  (List.insertionSort (fun a b : Int => a ≤ b) candidates).take max_results

/-- The dictionary `book_slot` returns. -/
structure BookResult where
  success : Bool
  appointment_id : Option String
  message : String
  deriving Repr, DecidableEq

/-- `book_slot(patient_id, doctor_sheet, start_iso, duration_minutes, status)`.
`start_dt` is the parsed, zone-normalized `start_iso`; `appt_id` stands for
the freshly drawn `"A" + uuid4` identifier and `now` for the insertion
timestamp.  The function (all under the file lock, which serializes the whole
body): derives `end = start + duration` (no validation of `duration_minutes`),
checks the request against the DB intervals, then against the DB+mirror
intervals, and only then inserts the appointment row and appends the mirror
row.  A primary-key collision on insert is the `sqlite3.IntegrityError`
branch: rollback, failure, no mirror append. -/
def book_slot (st : SchedState) (patient_id doctor_sheet : String)
    (start_dt : Int) (duration_minutes : Int) (status : String)
    (appt_id : String) (now : Int) : BookResult × SchedState :=
  let end_dt := start_dt + duration_minutes
  let existing := _load_existing_intervals_from_db st doctor_sheet
  if existing.any fun b => _overlaps start_dt end_dt b.1 b.2 then
    ({ success := false, appointment_id := none,
       message := "Slot not available or outside doctor's schedule" }, st)
  else
    let cal_booked := _load_booked_intervals_for_doctor st doctor_sheet
    if cal_booked.any fun b => _overlaps start_dt end_dt b.1 b.2 then
      ({ success := false, appointment_id := none,
         message := "Slot conflicts with calendar events (already booked)" }, st)
    else if st.appointments.any fun a => a.appointment_id == appt_id then
      ({ success := false, appointment_id := none,
         message := "DB integrity error" }, st)
    else
      let appt : Appt :=
        { appointment_id := appt_id, patient_id := patient_id,
          doctor_sheet := doctor_sheet, start_time := start_dt,
          end_time := end_dt, duration_minutes := duration_minutes,
          status := status, created_at := now, updated_at := now }
      let row : CalEvent :=
        { event_id := "", appointment_id := appt_id,
          doctor_sheet := doctor_sheet, start_time := start_dt,
          end_time := end_dt, created_at := now,
          source := if status == "tentative" then "local" else "confirmed" }
      ({ success := true, appointment_id := some appt_id, message := "" },
       { appointments := st.appointments ++ [appt],
         calendar_events := st.calendar_events ++ [row] })

/-- Cancellation as the spec describes it and as
`appointment_db.update_appointment(id, {'status': 'cancelled',
'updated_at': now})` performs it: the matching row's `status` becomes
`cancelled` and its `updated_at` is refreshed; nothing touches the
`calendar_events` mirror (no code in the repository ever removes mirror
rows). -/
def cancel_appointment (st : SchedState) (appt_id : String) (now : Int) :
    SchedState :=
  { st with
    appointments := st.appointments.map fun a =>
      if a.appointment_id == appt_id then
        { a with status := "cancelled", updated_at := now }
      else a }

end Scheduler

namespace Agent

/-- A row of the agent-side `appointments` table
(`src/backend/database/appointment_db.py`): `appointment_id, patient_id,
doctor, start_time, end_time, duration_minutes, status, reason, form_sent,
calendly_url, created_at, updated_at`. -/
structure AgentAppt where
  appointment_id : String
  patient_id : String
  doctor : String
  start_time : Int
  end_time : Int
  duration_minutes : Int
  status : String
  reason : String
  form_sent : Bool
  calendly_url : Option String
  created_at : Int
  updated_at : Option Int
  deriving Repr, DecidableEq

/-- The agent-side appointments table. -/
abbrev AgentDB := List AgentAppt

/-- The `updates` dictionary passed to `update_appointment`; `none` marks an
absent key. -/
structure UpdateDict where
  start_time : Option Int := none
  end_time : Option Int := none
  status : Option String := none
  reason : Option String := none
  form_sent : Option Bool := none
  calendly_url : Option (Option String) := none
  updated_at : Option Int := none
  deriving Repr, DecidableEq

/-- The effect of `update_appointment`'s SET clause on the matching row: only
the fields in `['status', 'reason', 'form_sent', 'calendly_url',
'updated_at']` are applied; `start_time` and `end_time` keys in the `updates`
dict are silently dropped by the field filter.  When `updated_at` is not
supplied the code always sets it to `datetime.now().isoformat()` (`now`
here). -/
def applyUpdate (u : UpdateDict) (now : Int) (a : AgentAppt) : AgentAppt :=
  { a with
    status := u.status.getD a.status
    reason := u.reason.getD a.reason
    form_sent := u.form_sent.getD a.form_sent
    calendly_url := u.calendly_url.getD a.calendly_url
    updated_at := some (u.updated_at.getD now) }

/-- `appointment_db.update_appointment(appointment_id, updates)`: runs the
filtered UPDATE against the row with the given id (a no-op when no row
matches) and returns `True`. -/
def update_appointment (db : AgentDB) (appointment_id : String)
    (u : UpdateDict) (now : Int) : Bool × AgentDB :=
  (true,
   db.map fun a =>
     if a.appointment_id == appointment_id then applyUpdate u now a else a)

/-- `appointment_db.get_appointment_by_id`: the first row with the id. -/
def get_appointment_by_id (db : AgentDB) (appointment_id : String) :
    Option AgentAppt :=
  db.find? fun a => a.appointment_id == appointment_id

/-- `appointment_db.get_appointments_by_doctor_and_date(doctor, date_str)`:
rows of the doctor whose `start_time` lies in `[dateT00:00:00, dateT23:59:59]`
(at minute granularity: within `[day * 1440, day * 1440 + 1439]`) and whose
status is not `cancelled`, ordered by `start_time`. -/
def get_appointments_by_doctor_and_date (db : AgentDB) (doctor : String)
    (day : Int) : List AgentAppt :=
  List.insertionSort (fun a b : AgentAppt => a.start_time ≤ b.start_time)
    (db.filter fun a =>
      a.doctor == doctor && decide (day * 1440 ≤ a.start_time) &&
        decide (a.start_time ≤ day * 1440 + 1439) && !(a.status == "cancelled"))

/-- `date_utils.generate_time_slots(date, start_hour, end_hour)`: for each
hour in `range(start_hour, end_hour)` the starts at minute 0 and minute 30. -/
def generate_time_slots (day : Int) (start_hour end_hour : Nat) : List Int :=
  (List.range' start_hour (end_hour - start_hour)).flatMap fun h =>
    [day * 1440 + (h : Int) * 60, day * 1440 + (h : Int) * 60 + 30]

/-- `date_utils.is_slot_available(slot_time, booked_slots, duration_minutes)`:
no booked interval satisfies `slot_dt < booked_end and slot_end >
booked_start`. -/
def is_slot_available (slot_time : Int) (booked_slots : List (Int × Int))
    (duration_minutes : Int) : Bool :=
  let slot_end := slot_time + duration_minutes
  !(booked_slots.any fun b =>
      decide (slot_time < b.2) && decide (slot_end > b.1))

/-- `SchedulingAgent.get_available_slots(doctor, date, duration_minutes)`:
generate the clinic-hour slots (`CLINIC_START_HOUR = 9`, `CLINIC_END_HOUR =
17`), collect the doctor's non-cancelled bookings of the day, and keep the
slots `is_slot_available` accepts, each paired with its end time. -/
def get_available_slots (db : AgentDB) (doctor : String) (day : Int)
    (duration_minutes : Int) : List (Int × Int) :=
  let all_slots := generate_time_slots day 9 17
  let existing_appointments := get_appointments_by_doctor_and_date db doctor day
  let booked_slots := (existing_appointments.filter fun a =>
      !(a.status == "cancelled")).map fun a => (a.start_time, a.end_time)
  (all_slots.filter fun t => is_slot_available t booked_slots duration_minutes).map
    fun t => (t, t + duration_minutes)

/-- The slot selection of `reschedule_appointment`: the first available slot,
unless a preferred clock time is given and some slot displays it (modelled as
the slot's start falling on that minute of the day). -/
def selectSlot (slots : List (Int × Int)) (new_time : Option Int) : Int × Int :=
  match new_time with
  | none => slots.headD (0, 0)
  | some t => ((slots.find? fun s => s.1 % 1440 == t).getD (slots.headD (0, 0)))

/-- `SchedulingAgent.reschedule_appointment(appointment_id, new_date,
new_time)`: look the appointment up, list the available slots of `new_date`
for its doctor and duration (no lock is taken and the appointment being moved
is not excluded from the conflict data), fail if none, otherwise pass
`{'start_time': ..., 'end_time': ..., 'updated_at': now}` to
`update_appointment` and report its `True` result. -/
def reschedule_appointment (db : AgentDB) (appointment_id : String)
    (new_date : Int) (new_time : Option Int) (now : Int) : Bool × AgentDB :=
  match get_appointment_by_id db appointment_id with
  | none => (false, db)
  | some appointment =>
    let available_slots :=
      get_available_slots db appointment.doctor new_date
        appointment.duration_minutes
    if available_slots.isEmpty then (false, db)
    else
      let selected_slot := selectSlot available_slots new_time
      let updates : UpdateDict :=
        { start_time := some selected_slot.1, end_time := some selected_slot.2,
          updated_at := some now }
      update_appointment db appointment_id updates now

end Agent

open Scheduler Agent

/-- Claim C5: the overlap predicate `_overlaps` (called by both
`find_available_slots` and `book_slot`) holds exactly when
`candidate.start < existing.end` and `candidate.end > existing.start`; in
particular two intervals that touch only at an endpoint (one's end equal to
the other's start, in either direction) never conflict, so back-to-back
candidates are not discarded. -/
theorem overlaps_strict_half_open (s1 e1 s2 e2 : Int) :
    (_overlaps s1 e1 s2 e2 = true ↔ (s1 < e2 ∧ e1 > s2)) ∧
    _overlaps s1 e1 e1 e2 = false ∧
    _overlaps s1 e1 s2 s1 = false := by
  refine ⟨?_, ?_, ?_⟩ <;> simp [_overlaps]

/-- Claim C8: for a rule with window 09:00–12:00 (minutes 540–720),
`duration_minutes = 60`, `step_minutes = 30`, no bookings and no past-time
exclusions (`now = 0`), `find_available_slots` yields exactly the starts
09:00, 09:30, 10:00, 10:30, 11:00 (540, 570, 600, 630, 660) and not 11:30
(690, whose end 12:30 is past the window). -/
theorem find_slots_granularity_example :
    find_available_slots ⟨[], []⟩ [⟨some 0, some 540, some 720, 30⟩] "d"
        none none 60 (some 30) 100 0 = [540, 570, 600, 630, 660] ∧
    (690 : Int) ∉ find_available_slots ⟨[], []⟩ [⟨some 0, some 540, some 720, 30⟩]
        "d" none none 60 (some 30) 100 0 := by
  decide

/-- Claim C3 (code bug): `book_slot` performs no validation of
`duration_minutes`.  With `duration_minutes = 0` on an empty state it derives
`end = start`, finds no conflict, inserts the appointment row and returns
`success = true` — there is no `InvalidTimeRangeError`-style rejection
anywhere in the function. -/
theorem book_slot_accepts_nonpositive_duration :
    (book_slot ⟨[], []⟩ "P1" "d" 1000 0 "tentative" "A1" 50).1.success = true ∧
    ((book_slot ⟨[], []⟩ "P1" "d" 1000 0 "tentative" "A1" 50).2.appointments.map
        fun a => (a.start_time, a.end_time, a.duration_minutes)) =
      [(1000, 1000, 0)] := by
  decide

/-- Claim C4 (code bug): when `date_from` and `date_to` are both omitted,
`find_available_slots` applies no date filter at all (the docstring promises
the next 14 days).  With the evaluation instant at minute 0 (day 0), a rule
dated day 100 — far outside today..+14 — still contributes its candidate
(minute 144540 = day 100, 09:00). -/
theorem find_slots_no_default_fourteen_day_range :
    find_available_slots ⟨[], []⟩ [⟨some 100, some 540, some 600, 30⟩] "d"
        none none 60 none 100 0 = [144540] ∧
    (100 : Int) > 0 + 14 := by
  decide

/-- Claim C1 (code bug): `reschedule_appointment` reports success but never
moves the appointment.  It passes `start_time`/`end_time`/`updated_at` to
`update_appointment`, whose allow-list (`status, reason, form_sent,
calendly_url, updated_at`) silently drops the interval fields: the booking
keeps its old interval (same identifier, new `updated_at`) while the call
returns `True`.  The second conjunct shows the validation also does not
exclude the booking being moved: with the moved appointment as the only
booking on its own date, its own start (540 = day 0, 09:00) is missing from
the available slots. -/
theorem reschedule_success_without_interval_update :
    reschedule_appointment
        [⟨"A1", "P1", "d", 540, 570, 30, "scheduled", "", false, none, 0, none⟩]
        "A1" 1 none 99 =
      (true,
       [⟨"A1", "P1", "d", 540, 570, 30, "scheduled", "", false, none, 0, some 99⟩]) ∧
    (540 : Int) ∉ (get_available_slots
        [⟨"A1", "P1", "d", 540, 570, 30, "scheduled", "", false, none, 0, none⟩]
        "d" 0 30).map Prod.fst := by
  decide

/-- Claim C6 (code bug): booking interval I and then cancelling the booking
does not make `find_available_slots` return I again.  Booking appends I to the
`calendar_events` mirror; cancellation only flips the DB row's status; the
loader includes every mirror row with no status filter, so I stays a conflict
source.  Concretely: book day 1, 09:00–09:30 (1980–2010), cancel, then search
day 1 (window 09:00–10:00, 30-minute slots): the result is `[2010]` — 1980 is
not returned.  The final conjunct shows the DB side alone behaves as the
claim expects: with the mirror cleared, 1980 comes back. -/
theorem cancelled_booking_slot_still_blocked :
    (book_slot ⟨[], []⟩ "P1" "d" 1980 30 "tentative" "A1" 10).1.success = true ∧
    ((cancel_appointment (book_slot ⟨[], []⟩ "P1" "d" 1980 30 "tentative" "A1" 10).2
        "A1" 20).appointments.map fun a => a.status) = ["cancelled"] ∧
    find_available_slots
        (cancel_appointment (book_slot ⟨[], []⟩ "P1" "d" 1980 30 "tentative" "A1" 10).2
          "A1" 20)
        [⟨some 1, some 540, some 600, 30⟩] "d" none none 30 none 100 0 = [2010] ∧
    find_available_slots
        ⟨(cancel_appointment (book_slot ⟨[], []⟩ "P1" "d" 1980 30 "tentative" "A1" 10).2
            "A1" 20).appointments, []⟩
        [⟨some 1, some 540, some 600, 30⟩] "d" none none 30 none 100 0 =
      [1980, 2010] := by
  decide

/-- Claim C2 (counterexample): with `max_results = 1` and the schedule rows in
non-chronological order (day 2 before day 1), the accumulation loop fills the
quota from the first row and stops, so the call returns the day-2 start 3420
while the surviving day-1 start 1980 — earlier, and present in the uncapped
run — is omitted: the result is not the globally earliest surviving
candidates. -/
theorem find_slots_max_results_not_globally_earliest :
    find_available_slots ⟨[], []⟩
        [⟨some 2, some 540, some 600, 30⟩, ⟨some 1, some 540, some 600, 30⟩]
        "d" none none 30 none 1 0 = [3420] ∧
    find_available_slots ⟨[], []⟩
        [⟨some 2, some 540, some 600, 30⟩, ⟨some 1, some 540, some 600, 30⟩]
        "d" none none 30 none 100 0 = [1980, 2010, 3420, 3450] ∧
    (1980 : Int) < 3420 := by
  decide

/-- Claim C2 (amended): the sequence `find_available_slots` returns is sorted
ascending by start and has length at most `max_results`; but because the
`max_results` bound is enforced while candidates accumulate in schedule-row
order (before the final sort), the returned candidates need not be the
globally earliest surviving ones. -/
theorem find_slots_sorted_and_bounded (st : SchedState) (rows : List ScheduleRow)
    (d : String) (date_from date_to : Option Int) (duration_minutes : Int)
    (step_minutes : Option Int) (max_results : Nat) (now : Int) :
    List.Sorted (fun a b : Int => a ≤ b)
      (find_available_slots st rows d date_from date_to duration_minutes
        step_minutes max_results now) ∧
    (find_available_slots st rows d date_from date_to duration_minutes
        step_minutes max_results now).length ≤ max_results := by
  unfold find_available_slots
  constructor
  · exact List.Pairwise.sublist (List.take_sublist _ _)
      (List.sorted_insertionSort _ _)
  · exact List.length_take_le _ _

lemma cancel_preserves_calendar_events (st : SchedState) (appt_id : String)
    (now : Int) :
    (cancel_appointment st appt_id now).calendar_events = st.calendar_events :=
  rfl

lemma foldl_cancel_preserves_calendar_events (cancels : List (String × Int))
    (st : SchedState) :
    (cancels.foldl (fun s c => cancel_appointment s c.1 c.2) st).calendar_events
      = st.calendar_events := by
  induction cancels generalizing st with
  | nil => rfl
  | cons c cs ih => simpa using ih (cancel_appointment st c.1 c.2)

lemma book_slot_success_calendar_events (st : SchedState)
    (patient_id doctor_sheet : String) (start_dt duration_minutes : Int)
    (status appt_id : String) (now : Int)
    (h : (book_slot st patient_id doctor_sheet start_dt duration_minutes status
      appt_id now).1.success = true) :
    (book_slot st patient_id doctor_sheet start_dt duration_minutes status
      appt_id now).2.calendar_events =
      st.calendar_events ++
        [⟨"", appt_id, doctor_sheet, start_dt, start_dt + duration_minutes, now,
          if status == "tentative" then "local" else "confirmed"⟩] := by
  by_cases h1 : ((_load_existing_intervals_from_db st doctor_sheet).any
      fun b => _overlaps start_dt (start_dt + duration_minutes) b.1 b.2) = true
  · simp [book_slot, h1] at h
  · by_cases h2 : ((_load_booked_intervals_for_doctor st doctor_sheet).any
        fun b => _overlaps start_dt (start_dt + duration_minutes) b.1 b.2) = true
    · rw [Bool.not_eq_true] at h1
      simp [book_slot, h1, h2] at h
    · by_cases h3 : (st.appointments.any fun a => a.appointment_id == appt_id) = true
      · rw [Bool.not_eq_true] at h1 h2
        simp [book_slot, h1, h2, h3] at h
      · rw [Bool.not_eq_true] at h1 h2 h3
        simp [book_slot, h1, h2, h3]

lemma mirror_row_in_loader (st : SchedState) (doctor_sheet : String)
    (ev : CalEvent) (hev : ev ∈ st.calendar_events)
    (hd : ev.doctor_sheet = doctor_sheet) :
    (ev.start_time, ev.end_time) ∈
      _load_booked_intervals_for_doctor st doctor_sheet := by
  unfold _load_booked_intervals_for_doctor
  refine List.mem_append_right _ ?_
  exact List.mem_map.mpr ⟨ev, List.mem_filter.mpr ⟨hev, by simp [hd]⟩, rfl⟩

/-- Claim C9: whenever the requested interval overlaps any interval the
conflict loader reports for the resource (a tentative/confirmed DB booking or
any mirror row), `book_slot` returns `success = false` with one of its two
conflict messages (and no identifier), and the state — appointments table and
mirror alike — is exactly the input state: nothing is inserted or appended. -/
theorem book_slot_conflict_rejects_without_mutation (st : SchedState)
    (patient_id doctor_sheet : String) (start_dt duration_minutes : Int)
    (status appt_id : String) (now : Int)
    (h : ∃ b ∈ _load_booked_intervals_for_doctor st doctor_sheet,
      _overlaps start_dt (start_dt + duration_minutes) b.1 b.2 = true) :
    (book_slot st patient_id doctor_sheet start_dt duration_minutes status
      appt_id now).1.success = false ∧
    (book_slot st patient_id doctor_sheet start_dt duration_minutes status
      appt_id now).1.appointment_id = none ∧
    (book_slot st patient_id doctor_sheet start_dt duration_minutes status
      appt_id now).2 = st ∧
    ((book_slot st patient_id doctor_sheet start_dt duration_minutes status
        appt_id now).1.message = "Slot not available or outside doctor's schedule" ∨
      (book_slot st patient_id doctor_sheet start_dt duration_minutes status
        appt_id now).1.message = "Slot conflicts with calendar events (already booked)") := by
  have hcal : ((_load_booked_intervals_for_doctor st doctor_sheet).any
      fun b => _overlaps start_dt (start_dt + duration_minutes) b.1 b.2) = true := by
    obtain ⟨b, hb, hov⟩ := h
    exact List.any_eq_true.mpr ⟨b, hb, hov⟩
  by_cases hdb : ((_load_existing_intervals_from_db st doctor_sheet).any
      fun b => _overlaps start_dt (start_dt + duration_minutes) b.1 b.2) = true
  · simp [book_slot, hdb]
  · rw [Bool.not_eq_true] at hdb
    simp [book_slot, hdb, hcal]

/-- Witness for C9: one tentative booking 100–200 for the doctor; the request
110–140 overlaps it and is rejected with the state unchanged. -/
theorem book_slot_conflict_rejects_without_mutation_witness :
    (book_slot ⟨[⟨"A1", "P1", "d", 100, 200, 100, "tentative", 0, 0⟩], []⟩
      "P2" "d" 110 30 "tentative" "A2" 7).1.success = false ∧
    (book_slot ⟨[⟨"A1", "P1", "d", 100, 200, 100, "tentative", 0, 0⟩], []⟩
      "P2" "d" 110 30 "tentative" "A2" 7).1.appointment_id = none ∧
    (book_slot ⟨[⟨"A1", "P1", "d", 100, 200, 100, "tentative", 0, 0⟩], []⟩
      "P2" "d" 110 30 "tentative" "A2" 7).2 =
      ⟨[⟨"A1", "P1", "d", 100, 200, 100, "tentative", 0, 0⟩], []⟩ ∧
    ((book_slot ⟨[⟨"A1", "P1", "d", 100, 200, 100, "tentative", 0, 0⟩], []⟩
        "P2" "d" 110 30 "tentative" "A2" 7).1.message =
        "Slot not available or outside doctor's schedule" ∨
      (book_slot ⟨[⟨"A1", "P1", "d", 100, 200, 100, "tentative", 0, 0⟩], []⟩
        "P2" "d" 110 30 "tentative" "A2" 7).1.message =
        "Slot conflicts with calendar events (already booked)") :=
  book_slot_conflict_rejects_without_mutation
    ⟨[⟨"A1", "P1", "d", 100, 200, 100, "tentative", 0, 0⟩], []⟩
    "P2" "d" 110 30 "tentative" "A2" 7 (by decide)

/-- Claim C10: `book_slot` commits any requested interval that does not
overlap a loaded conflict interval (given a fresh identifier): the
hypotheses mention no availability rule and no current time, because the
function consults neither — its success depends only on the conflict
intervals.  The witness books an interval far in the past. -/
theorem book_slot_commits_any_conflict_free_interval (st : SchedState)
    (patient_id doctor_sheet : String) (start_dt duration_minutes : Int)
    (status appt_id : String) (now : Int)
    (hfree : ∀ b ∈ _load_booked_intervals_for_doctor st doctor_sheet,
      _overlaps start_dt (start_dt + duration_minutes) b.1 b.2 = false)
    (hid : ∀ a ∈ st.appointments, a.appointment_id ≠ appt_id) :
    (book_slot st patient_id doctor_sheet start_dt duration_minutes status
      appt_id now).1.success = true ∧
    (book_slot st patient_id doctor_sheet start_dt duration_minutes status
      appt_id now).1.appointment_id = some appt_id ∧
    (book_slot st patient_id doctor_sheet start_dt duration_minutes status
      appt_id now).2.appointments =
      st.appointments ++ [⟨appt_id, patient_id, doctor_sheet, start_dt,
        start_dt + duration_minutes, duration_minutes, status, now, now⟩] := by
  have hcal : ((_load_booked_intervals_for_doctor st doctor_sheet).any
      fun b => _overlaps start_dt (start_dt + duration_minutes) b.1 b.2) = false := by
    simp only [List.any_eq_false]
    intro b hb
    simp [hfree b hb]
  have hdb : ((_load_existing_intervals_from_db st doctor_sheet).any
      fun b => _overlaps start_dt (start_dt + duration_minutes) b.1 b.2) = false := by
    simp only [List.any_eq_false]
    intro b hb
    simp [hfree b (List.mem_append_left _ hb)]
  have hins : (st.appointments.any fun a => a.appointment_id == appt_id) = false := by
    simp only [List.any_eq_false]
    intro a ha
    simp [hid a ha]
  simp [book_slot, hdb, hcal, hins]

/-- Witness for C10: on an empty state, the interval starting at minute -5000
— entirely in the past for any positive evaluation instant, and inside no
availability window — is booked with `success = true`. -/
theorem book_slot_commits_any_conflict_free_interval_witness :
    (book_slot ⟨[], []⟩ "P1" "d" (-5000) 30 "tentative" "A1" 0).1.success = true ∧
    (book_slot ⟨[], []⟩ "P1" "d" (-5000) 30 "tentative" "A1" 0).1.appointment_id =
      some "A1" ∧
    (book_slot ⟨[], []⟩ "P1" "d" (-5000) 30 "tentative" "A1" 0).2.appointments =
      [] ++ [⟨"A1", "P1", "d", -5000, -5000 + 30, 30, "tentative", 0, 0⟩] :=
  book_slot_commits_any_conflict_free_interval ⟨[], []⟩ "P1" "d" (-5000) 30
    "tentative" "A1" 0 (by decide) (by decide)

/-- Claim C7: (1) every successful `book_slot` appends the booked interval to
the `calendar_events` mirror of the resulting state; (2) the conflict loader
includes every mirror row of the resource with no status filtering; (3) hence
after a successful booking, the interval remains among the loaded conflict
intervals after any sequence of cancellations (the only status-changing
operation), since nothing removes mirror rows. -/
theorem mirrored_interval_conflicts_forever :
    (∀ (st : SchedState) (patient_id doctor_sheet : String)
        (start_dt duration_minutes : Int) (status appt_id : String) (now : Int),
      (book_slot st patient_id doctor_sheet start_dt duration_minutes status
        appt_id now).1.success = true →
      (⟨"", appt_id, doctor_sheet, start_dt, start_dt + duration_minutes, now,
          if status == "tentative" then "local" else "confirmed"⟩ : CalEvent) ∈
        (book_slot st patient_id doctor_sheet start_dt duration_minutes status
          appt_id now).2.calendar_events) ∧
    (∀ (st : SchedState) (doctor_sheet : String) (ev : CalEvent),
      ev ∈ st.calendar_events → ev.doctor_sheet = doctor_sheet →
      (ev.start_time, ev.end_time) ∈
        _load_booked_intervals_for_doctor st doctor_sheet) ∧
    (∀ (st : SchedState) (patient_id doctor_sheet : String)
        (start_dt duration_minutes : Int) (status appt_id : String) (now : Int)
        (cancels : List (String × Int)),
      (book_slot st patient_id doctor_sheet start_dt duration_minutes status
        appt_id now).1.success = true →
      (start_dt, start_dt + duration_minutes) ∈
        _load_booked_intervals_for_doctor
          (cancels.foldl (fun s c => cancel_appointment s c.1 c.2)
            (book_slot st patient_id doctor_sheet start_dt duration_minutes
              status appt_id now).2) doctor_sheet) := by
  refine ⟨?_, ?_, ?_⟩
  · intro st patient_id doctor_sheet start_dt duration_minutes status appt_id now h
    rw [book_slot_success_calendar_events st patient_id doctor_sheet start_dt
      duration_minutes status appt_id now h]
    simp
  · intro st doctor_sheet ev hev hd
    exact mirror_row_in_loader st doctor_sheet ev hev hd
  · intro st patient_id doctor_sheet start_dt duration_minutes status appt_id now cancels h
    have hrow : (⟨"", appt_id, doctor_sheet, start_dt,
        start_dt + duration_minutes, now,
        if status == "tentative" then "local" else "confirmed"⟩ : CalEvent) ∈
        (cancels.foldl (fun s c => cancel_appointment s c.1 c.2)
          (book_slot st patient_id doctor_sheet start_dt duration_minutes
            status appt_id now).2).calendar_events := by
      rw [foldl_cancel_preserves_calendar_events,
        book_slot_success_calendar_events st patient_id doctor_sheet start_dt
          duration_minutes status appt_id now h]
      simp
    exact mirror_row_in_loader _ doctor_sheet _ hrow rfl

/-- Witness for C7: book 1980–2010 on an empty state, cancel the booking; the
interval is still among the loaded conflict intervals. -/
theorem mirrored_interval_conflicts_forever_witness :
    ((1980 : Int), (2010 : Int)) ∈
      _load_booked_intervals_for_doctor
        ([("A1", 20)].foldl (fun s c => cancel_appointment s c.1 c.2)
          (book_slot ⟨[], []⟩ "P1" "d" 1980 30 "tentative" "A1" 10).2) "d" :=
  mirrored_interval_conflicts_forever.2.2 ⟨[], []⟩ "P1" "d" 1980 30 "tentative"
    "A1" 10 [("A1", 20)] (by decide)
